import Mathlib

/-!
The vengine service: an HTTP / WebSocket facade over a local whisper.cpp binary.

A shallow embedding of `src/vengine/main.go`.  Every handler is a pure function
of the values the outside world hands back to it (form parsing, `os.Stat`,
file writes, process runs, WebSocket reads) and returns the list of calls it
made on the outside world, in order, together with the JSON response it wrote.
-/

namespace Vengine

/-! ## Configuration constants -/

/-- The constant `whisperDir` (main.go line 14). -/
def whisperDir : String := "$HOME/whisper.cpp"

/-- The constant `whisperBin` (main.go line 15). -/
def whisperBin : String := whisperDir ++ "/main"

/-! ## Outside world -/

/-- Error numbers `os.Stat` may carry in a non-nil error. -/
inductive Errno where
  | ENOENT
  | ENOTDIR
  | EACCES
  | EIO
  deriving DecidableEq, Repr

/-- Go's `os.IsNotExist` on the error returned by a system call: true for
`ENOENT` only, false for `nil` and for every other error number. -/
def osIsNotExist : Option Errno → Bool
  | some Errno.ENOENT => true
  | _ => false

/-- The non-nil errors of `cmd.Run()` and `cmd.Output()`: the process could not
be started, or it ran and exited with a non-zero code. -/
inductive ExecError where
  | spawn (msg : String)
  | exit (code : Nat)
  deriving DecidableEq, Repr

/-- A `multipart.FileHeader`: the uploaded file's name and bytes. -/
structure FileHeader where
  Filename : String
  content : List Nat
  deriving DecidableEq, Repr

/-- A call made on the outside world. -/
inductive Effect where
  | stat (path : String)
  | saveUploadedFile (file : FileHeader) (dst : String)
  | writeFile (path : String) (data : List Nat) (perm : Nat)
  | command (name : String) (args : List String)
  | upgrade
  | readMessage
  | writeMessage (messageType : Nat) (data : String)
  | log (msg : String)
  | close
  deriving DecidableEq, Repr

/-- The response written with `c.JSON`: a status code and the JSON object of the
body, with every string value as a JSON reader decodes it. -/
structure Response where
  status : Nat
  body : List (String × String)
  deriving DecidableEq, Repr

/-- The `gin.Context` of one request together with the answers of the outside
world to the calls a handler can make during that request. -/
structure Ctx where
  /-- The value `c.Query(key)` returns; empty when the key is absent. -/
  Query : String → String
  /-- The value `c.FormFile(name)` returns. -/
  FormFile : String → Except String FileHeader
  /-- The error `os.Stat(path)` returns; `none` is `nil`. -/
  Stat : String → Option Errno
  /-- The error `c.SaveUploadedFile(file, dst)` returns. -/
  SaveUploadedFile : FileHeader → String → Option String
  /-- The error `cmd.Run()` returns for `exec.Command(name, args...)`. -/
  Run : String → List String → Option ExecError
  /-- The pair `cmd.Output()` returns for `exec.Command(name, args...)`: the
  bytes of standard output captured so far (each below 256) and the error. -/
  Output : String → List String → List Nat × Option ExecError

/-- What a handler did: its calls on the outside world and its response. -/
structure Result where
  effects : List Effect
  response : Response
  deriving DecidableEq, Repr

def StatusOK : Nat := 200
def StatusBadRequest : Nat := 400
def StatusInternalServerError : Nat := 500

/-- The constant `websocket.TextMessage`. -/
def TextMessage : Nat := 1

/-! ## Go's `filepath.Join` on Unix -/

/-- Split a path at every `/`. -/
def splitSlash : List Char → List (List Char)
  | [] => [[]]
  | c :: cs =>
    if c = '/' then [] :: splitSlash cs
    else
      match splitSlash cs with
      | [] => [[c]]
      | h :: t => (c :: h) :: t

/-- One step of `filepath.Clean` on a path element; `acc` holds the elements
kept so far, last one first.  Empty and `.` elements are dropped; `..` removes
the last kept real element, is kept when there is none and the path is not
rooted, and is dropped at the root. -/
def cleanStep (rooted : Bool) (acc : List (List Char)) (e : List Char) : List (List Char) :=
  if e = [] ∨ e = ['.'] then acc
  else if e = ['.', '.'] then
    match acc with
    | [] => if rooted then [] else [e]
    | top :: rest => if top = ['.', '.'] then e :: acc else rest
  else e :: acc

/-- Go's `filepath.Clean` on Unix. -/
def filepathClean (path : List Char) : List Char :=
  if path = [] then ['.']
  else
    let rooted : Bool := path.head? = some '/'
    let kept := ((splitSlash path).foldl (cleanStep rooted) []).reverse
    let joined := List.intercalate ['/'] kept
    if rooted then '/' :: joined
    else if kept = [] then ['.'] else joined

/-- Go's `filepath.Join` on Unix: the elements from the first non-empty one on
are joined with `/` and the result is cleaned; no non-empty element gives the
empty string. -/
def filepathJoin : List String → String
  | [] => ""
  | e :: es =>
    if e = "" then filepathJoin es
    else String.mk (filepathClean (List.intercalate ['/'] ((e :: es).map String.data)))

/-! ## Go strings as JSON text -/

/-- Go's `utf8.DecodeRuneInString` on the bytes of a string: the rune and its
width in bytes.  An empty string gives `(RuneError, 0)` and an invalid or
truncated sequence `(RuneError, 1)`, where `RuneError` is U+FFFD; the second
byte must lie in the range the first byte accepts (which excludes overlong
forms, surrogates and values above U+10FFFF) and later bytes in `80..BF`. -/
def decodeRune : List Nat → Nat × Nat
  | [] => (0xFFFD, 0)
  | s0 :: rest =>
    if s0 < 0x80 then (s0, 1)
    else if s0 < 0xC2 ∨ 0xF4 < s0 then (0xFFFD, 1)
    else
      let sz := if s0 < 0xE0 then 2 else if s0 < 0xF0 then 3 else 4
      let lo := if s0 = 0xE0 then 0xA0 else if s0 = 0xF0 then 0x90 else 0x80
      let hi := if s0 = 0xED then 0x9F else if s0 = 0xF4 then 0x8F else 0xBF
      if rest.length + 1 < sz then (0xFFFD, 1)
      else
        let s1 := rest.getD 0 0
        let s2 := rest.getD 1 0
        let s3 := rest.getD 2 0
        if s1 < lo ∨ hi < s1 then (0xFFFD, 1)
        else if sz ≤ 2 then (s0 % 32 * 64 + s1 % 64, 2)
        else if s2 < 0x80 ∨ 0xBF < s2 then (0xFFFD, 1)
        else if sz ≤ 3 then (s0 % 16 * 4096 + s1 % 64 * 64 + s2 % 64, 3)
        else if s3 < 0x80 ∨ 0xBF < s3 then (0xFFFD, 1)
        else (s0 % 8 * 262144 + s1 % 64 * 4096 + s2 % 64 * 64 + s3 % 64, 4)

/-- The characters a JSON reader gets back from the string value that Go's
`encoding/json` (used by `c.JSON`) writes for a Go string with the given bytes.
The encoder walks the bytes: a byte below `80` stands for itself (written
plainly or as an escape), a valid multi-byte sequence for its rune, and a byte
at which `utf8.DecodeRuneInString` gives `(RuneError, 1)` is written as
`\ufffd`.  `skip` counts the bytes still to pass over of the sequence decoded
last. -/
def jsonRunes : Nat → List Nat → List Char
  | _, [] => []
  | skip + 1, _ :: rest => jsonRunes skip rest
  | 0, b :: rest =>
    if b < 0x80 then Char.ofNat b :: jsonRunes 0 rest
    else
      let r := decodeRune (b :: rest)
      if r.1 = 0xFFFD ∧ r.2 = 1 then Char.ofNat 0xFFFD :: jsonRunes 0 rest
      else Char.ofNat r.1 :: jsonRunes (r.2 - 1) rest

/-- The text a JSON reader gets for the Go string with the given bytes once
`c.JSON` has encoded it. -/
def jsonText (src : List Nat) : String := String.mk (jsonRunes 0 src)

/-- The UTF-8 encoding of a character, as Go's `utf8.AppendRune` writes it. -/
def utf8EncodeChar (c : Char) : List Nat :=
  let i := c.toNat
  if i ≤ 0x7F then [i]
  else if i ≤ 0x7FF then [0xC0 + i / 64, 0x80 + i % 64]
  else if i ≤ 0xFFFF then [0xE0 + i / 4096, 0x80 + i / 64 % 64, 0x80 + i % 64]
  else [0xF0 + i / 262144, 0x80 + i / 4096 % 64, 0x80 + i / 64 % 64, 0x80 + i % 64]

/-- The UTF-8 encoding of a list of characters. -/
def utf8Bytes : List Char → List Nat
  | [] => []
  | c :: cs => utf8EncodeChar c ++ utf8Bytes cs

/-- The UTF-8 encoding of a text: the bytes a process prints to print it. -/
def utf8Encode (s : String) : List Nat := utf8Bytes s.data

/-! ## Handlers -/

/-- The handler `checkWhisperStatus` (main.go lines 31-37). -/
def checkWhisperStatus (c : Ctx) : Result :=
  if osIsNotExist (c.Stat whisperBin) then
    { effects := [Effect.stat whisperBin],
      response := ⟨StatusInternalServerError, [("status", "Whisper is NOT installed")]⟩ }
  else
    { effects := [Effect.stat whisperBin],
      response := ⟨StatusOK, [("status", "Whisper is installed")]⟩ }

/-- The model name `installModel` works with (main.go lines 41-44). -/
def modelOf (c : Ctx) : String :=
  let model := c.Query "model"
  if model = "" then "medium" else model

/-- The path `installModel` builds for a model name (main.go line 46). -/
def modelPath (model : String) : String :=
  filepathJoin [whisperDir, "models", "ggml-" ++ model ++ ".bin"]

/-- The handler `installModel` (main.go lines 40-60). -/
def installModel (c : Ctx) : Result :=
  let model := modelOf c
  let modelPath := modelPath model
  match c.Stat modelPath with
  | none =>
    { effects := [Effect.stat modelPath],
      response := ⟨StatusOK, [("message", "Model " ++ model ++ " is already installed")]⟩ }
  | some _ =>
    let script := whisperDir ++ "/models/download-ggml-model.sh"
    match c.Run "bash" [script, model] with
    | some _ =>
      { effects := [Effect.stat modelPath, Effect.command "bash" [script, model]],
        response := ⟨StatusInternalServerError, [("error", "Failed to install model")]⟩ }
    | none =>
      { effects := [Effect.stat modelPath, Effect.command "bash" [script, model]],
        response := ⟨StatusOK, [("message", "Model " ++ model ++ " installed")]⟩ }

/-- The handler `transcribeAudio` (main.go lines 63-83). -/
def transcribeAudio (c : Ctx) : Result :=
  match c.FormFile "audio" with
  | Except.error _ =>
    { effects := [],
      response := ⟨StatusBadRequest, [("error", "Audio file required")]⟩ }
  | Except.ok file =>
    let dst := "/tmp/" ++ file.Filename
    let _ := c.SaveUploadedFile file dst
    let args := ["--file", dst, "--model", "medium"]
    match c.Output whisperBin args with
    | (_, some _) =>
      { effects := [Effect.saveUploadedFile file dst, Effect.command whisperBin args],
        response := ⟨StatusInternalServerError, [("error", "Transcription failed")]⟩ }
    | (out, none) =>
      { effects := [Effect.saveUploadedFile file dst, Effect.command whisperBin args],
        response := ⟨StatusOK, [("transcription", jsonText out)]⟩ }

/-- The handler `translateAudio` (main.go lines 86-106). -/
def translateAudio (c : Ctx) : Result :=
  match c.FormFile "audio" with
  | Except.error _ =>
    { effects := [],
      response := ⟨StatusBadRequest, [("error", "Audio file required")]⟩ }
  | Except.ok file =>
    let dst := "/tmp/" ++ file.Filename
    let _ := c.SaveUploadedFile file dst
    let args := ["--file", dst, "--model", "medium", "--translate"]
    match c.Output whisperBin args with
    | (_, some _) =>
      { effects := [Effect.saveUploadedFile file dst, Effect.command whisperBin args],
        response := ⟨StatusInternalServerError, [("error", "Translation failed")]⟩ }
    | (out, none) =>
      { effects := [Effect.saveUploadedFile file dst, Effect.command whisperBin args],
        response := ⟨StatusOK, [("translation", jsonText out)]⟩ }

/-- One round of the loop of `streamAudio` in which `conn.ReadMessage` returned
a message: the message and what the outside world answered to the three calls
the loop body makes. -/
structure Turn where
  /-- The message type `conn.ReadMessage` returned. -/
  messageType : Nat
  /-- The payload `conn.ReadMessage` returned. -/
  audioData : List Nat
  /-- The error `os.WriteFile` returned. -/
  writeErr : Option String
  /-- The standard output `cmd.Output()` returned. -/
  out : String
  /-- The error `cmd.Output()` returned. -/
  runErr : Option ExecError
  /-- The error `conn.WriteMessage` returned. -/
  sendErr : Option String
  deriving DecidableEq, Repr

/-- The body of the loop of `streamAudio` for one message (main.go lines
124-137). -/
def streamTurn (t : Turn) : List Effect :=
  let audioPath := "/tmp/live_audio.wav"
  let _ := t.writeErr
  let args := ["--file", audioPath, "--model", "medium"]
  let _ := t.sendErr
  match t.runErr with
  | some _ =>
    [Effect.readMessage, Effect.writeFile audioPath t.audioData 0o644,
     Effect.command whisperBin args,
     Effect.writeMessage TextMessage "Transcription failed"]
  | none =>
    [Effect.readMessage, Effect.writeFile audioPath t.audioData 0o644,
     Effect.command whisperBin args,
     Effect.writeMessage TextMessage t.out]

/-- The loop of `streamAudio` (main.go lines 117-138) on a connection that
delivers the messages of `turns` and then fails the next read. -/
def streamLoop : List Turn → List Effect
  | [] => [Effect.readMessage, Effect.log "WebSocket error:"]
  | t :: ts => streamTurn t ++ streamLoop ts

/-- The handler `streamAudio` (main.go lines 109-139): `upgradeErr` is the error
of `upgrader.Upgrade`, `turns` the messages the connection delivers before its
first read error. -/
def streamAudio (upgradeErr : Option String) (turns : List Turn) : List Effect :=
  match upgradeErr with
  | some _ => [Effect.upgrade, Effect.log "WebSocket upgrade failed:"]
  | none => Effect.upgrade :: (streamLoop turns ++ [Effect.close])

/-! ## Observations on a list of calls -/

/-- The process invocations among a list of calls: program and arguments. -/
def commands : List Effect → List (String × List String)
  | [] => []
  | Effect.command name args :: es => (name, args) :: commands es
  | _ :: es => commands es

/-- The scratch-file writes among a list of calls: the destination paths. -/
def fileWrites : List Effect → List String
  | [] => []
  | Effect.saveUploadedFile _ dst :: es => dst :: fileWrites es
  | Effect.writeFile path _ _ :: es => path :: fileWrites es
  | _ :: es => fileWrites es

/-- The paths passed to `os.Stat` among a list of calls. -/
def statPaths : List Effect → List String
  | [] => []
  | Effect.stat path :: es => path :: statPaths es
  | _ :: es => statPaths es

/-- The messages sent with `conn.WriteMessage` among a list of calls. -/
def sentMessages : List Effect → List (Nat × String)
  | [] => []
  | Effect.writeMessage messageType data :: es => (messageType, data) :: sentMessages es
  | _ :: es => sentMessages es

/-! ## Sample requests -/

/-- A request without an `audio` part and without a `model` parameter, on a
machine where nothing is installed and no process can be started. -/
def bareCtx : Ctx where
  Query := fun _ => ""
  FormFile := fun _ => Except.error "http: no such file"
  Stat := fun _ => some Errno.ENOENT
  SaveUploadedFile := fun _ _ => none
  Run := fun _ _ => some (ExecError.spawn "executable file not found")
  Output := fun _ _ => ([], some (ExecError.spawn "executable file not found"))

/-- The upload `clip.wav`. -/
def clip : FileHeader := ⟨"clip.wav", [82, 73, 70, 70]⟩

/-- An upload of `clip.wav` with `model=tiny`, on a machine where every file
exists, the scratch file is written, and every process exits with code 0 after
printing the text `out`. -/
def okCtx (out : String) : Ctx where
  Query := fun key => if key = "model" then "tiny" else ""
  FormFile := fun name => if name = "audio" then Except.ok clip else Except.error "http: no such file"
  Stat := fun _ => none
  SaveUploadedFile := fun _ _ => none
  Run := fun _ _ => none
  Output := fun _ _ => (utf8Encode out, none)

/-- An upload of `clip.wav` on a machine where the scratch file is written and
the binary prints the text `printed` and then exits with code 1. -/
def crashCtx (printed : String) : Ctx where
  Query := fun _ => ""
  FormFile := fun name => if name = "audio" then Except.ok clip else Except.error "http: no such file"
  Stat := fun _ => none
  SaveUploadedFile := fun _ _ => none
  Run := fun _ _ => some (ExecError.exit 1)
  Output := fun _ _ => (utf8Encode printed, some (ExecError.exit 1))

/-- An upload of `clip.wav` on a machine where the scratch file cannot be
written and the binary still prints the text `out` and exits with code 0. -/
def diskFullCtx (out : String) : Ctx where
  Query := fun _ => ""
  FormFile := fun name => if name = "audio" then Except.ok clip else Except.error "http: no such file"
  Stat := fun _ => none
  SaveUploadedFile := fun _ _ => some "no space left on device"
  Run := fun _ _ => none
  Output := fun _ _ => (utf8Encode out, none)

/-- An upload of `clip.wav` on a machine where the scratch file is written and
the binary prints the bytes `out` and exits with code 0. -/
def rawCtx (out : List Nat) : Ctx where
  Query := fun _ => ""
  FormFile := fun name => if name = "audio" then Except.ok clip else Except.error "http: no such file"
  Stat := fun _ => none
  SaveUploadedFile := fun _ _ => none
  Run := fun _ _ => none
  Output := fun _ _ => (out, none)

/-- A machine on which `os.Stat` fails with the error `e` on every path; with
`ENOTDIR` this is a machine on which `$HOME/whisper.cpp` is a regular file, so
that the binary does not exist. -/
def statErrCtx (e : Errno) : Ctx where
  Query := fun _ => ""
  FormFile := fun _ => Except.error "http: no such file"
  Stat := fun _ => some e
  SaveUploadedFile := fun _ _ => none
  Run := fun _ _ => some (ExecError.exit 1)
  Output := fun _ _ => ([], some (ExecError.exit 1))

/-- A request `GET /install-model?model=<model>` on a machine where no model is
installed and the download script exits with `runErr`. -/
def installCtx (model : String) (runErr : Option ExecError) : Ctx where
  Query := fun key => if key = "model" then model else ""
  FormFile := fun _ => Except.error "http: no such file"
  Stat := fun _ => some Errno.ENOENT
  SaveUploadedFile := fun _ _ => none
  Run := fun _ _ => runErr
  Output := fun _ _ => ([], none)

/-! ## Theorems -/

/-- C1: when the multipart form has no `audio` file (`c.FormFile` returns an
error), `transcribeAudio` and `translateAudio` both respond 400 with
`{"error":"Audio file required"}`, write no scratch file and start no process. -/
theorem missing_audio_bad_request (c : Ctx) (e : String)
    (h : c.FormFile "audio" = Except.error e) :
    (transcribeAudio c).response = ⟨400, [("error", "Audio file required")]⟩ ∧
    fileWrites (transcribeAudio c).effects = [] ∧
    commands (transcribeAudio c).effects = [] ∧
    (translateAudio c).response = ⟨400, [("error", "Audio file required")]⟩ ∧
    fileWrites (translateAudio c).effects = [] ∧
    commands (translateAudio c).effects = [] := by
  simp [transcribeAudio, translateAudio, h, fileWrites, commands, StatusBadRequest]

theorem missing_audio_bad_request_witness :
    bareCtx.FormFile "audio" = Except.error "http: no such file" ∧
    (transcribeAudio bareCtx).response = ⟨400, [("error", "Audio file required")]⟩ ∧
    fileWrites (transcribeAudio bareCtx).effects = [] ∧
    commands (transcribeAudio bareCtx).effects = [] ∧
    (translateAudio bareCtx).response = ⟨400, [("error", "Audio file required")]⟩ ∧
    fileWrites (translateAudio bareCtx).effects = [] ∧
    commands (translateAudio bareCtx).effects = [] :=
  ⟨rfl, missing_audio_bad_request bareCtx "http: no such file" rfl⟩

/-- Shared step: the messages sent by the loop answer the turns one by one. -/
lemma sentMessages_streamLoop (turns : List Turn) :
    sentMessages (streamLoop turns ++ [Effect.close]) =
      turns.map (fun t =>
        (TextMessage, if t.runErr = none then t.out else "Transcription failed")) := by
  induction turns with
  | nil => simp [streamLoop, sentMessages]
  | cons t ts ih =>
    cases hr : t.runErr <;>
      simp [streamLoop, streamTurn, hr, sentMessages, ih]

/-- C2: on a session whose connection delivers the messages of `turns` before
its first read error, `streamAudio` sends exactly one text message per inbound
message, in the same order: the captured standard output when that invocation
succeeded and the literal `Transcription failed` when it failed; the rounds
after a failed one are still answered. -/
theorem stream_one_reply_per_message (turns : List Turn) :
    sentMessages (streamAudio none turns) =
      turns.map (fun t =>
        (TextMessage, if t.runErr = none then t.out else "Transcription failed")) ∧
    (sentMessages (streamAudio none turns)).length = turns.length := by
  have h : sentMessages (streamAudio none turns) =
      turns.map (fun t =>
        (TextMessage, if t.runErr = none then t.out else "Transcription failed")) := by
    simp [streamAudio, sentMessages, sentMessages_streamLoop]
  exact ⟨h, by rw [h, List.length_map]⟩

/-- C3: on a machine where `os.Stat` on the binary path fails with `ENOTDIR`
(the binary does not exist), `checkWhisperStatus` responds 200 with
`{"status":"Whisper is installed"}`, and likewise when it fails with `EACCES`
or `EIO`; only `ENOENT` is answered 500 with
`{"status":"Whisper is NOT installed"}`. -/
theorem status_installed_on_stat_error :
    (statErrCtx Errno.ENOTDIR).Stat whisperBin = some Errno.ENOTDIR ∧
    checkWhisperStatus (statErrCtx Errno.ENOTDIR) =
      ⟨[Effect.stat "$HOME/whisper.cpp/main"], ⟨200, [("status", "Whisper is installed")]⟩⟩ ∧
    (checkWhisperStatus (statErrCtx Errno.EACCES)).response =
      ⟨200, [("status", "Whisper is installed")]⟩ ∧
    (checkWhisperStatus (statErrCtx Errno.EIO)).response =
      ⟨200, [("status", "Whisper is installed")]⟩ ∧
    (checkWhisperStatus (statErrCtx Errno.ENOENT)).response =
      ⟨500, [("status", "Whisper is NOT installed")]⟩ := by
  decide

/-- C4: when the model file of the requested model exists (`os.Stat` on its path
succeeds), `installModel` starts no process and responds 200 with
`{"message":"Model <m> is already installed"}`, where `<m>` is the `model`
query value, or `medium` when that value is empty. -/
theorem install_model_idempotent (c : Ctx)
    (h : c.Stat (modelPath (modelOf c)) = none) :
    commands (installModel c).effects = [] ∧
    (installModel c).response =
      ⟨200, [("message", "Model " ++ modelOf c ++ " is already installed")]⟩ ∧
    modelOf c = (if c.Query "model" = "" then "medium" else c.Query "model") := by
  refine ⟨?_, ?_, rfl⟩ <;> simp [installModel, h, commands, StatusOK]

theorem install_model_idempotent_witness :
    (okCtx "").Stat (modelPath (modelOf (okCtx ""))) = none ∧
    commands (installModel (okCtx "")).effects = [] ∧
    (installModel (okCtx "")).response =
      ⟨200, [("message", "Model " ++ modelOf (okCtx "") ++ " is already installed")]⟩ ∧
    modelOf (okCtx "") =
      (if (okCtx "").Query "model" = "" then "medium" else (okCtx "").Query "model") :=
  ⟨rfl, install_model_idempotent (okCtx "") rfl⟩

/-- Shared step: a second byte in `80..BF` after a first byte in `C2..DF`
decodes as a rune of width 2. -/
lemma decodeRune_two (s0 s1 : Nat) (rest : List Nat) (h0 : 0xC2 ≤ s0) (h0b : s0 ≤ 0xDF)
    (h1 : 0x80 ≤ s1) (h1b : s1 ≤ 0xBF) :
    decodeRune (s0 :: s1 :: rest) = (s0 % 32 * 64 + s1 % 64, 2) := by
  have a1 : ¬ s0 < 0x80 := by omega
  have a2 : ¬ (s0 < 0xC2 ∨ 0xF4 < s0) := by omega
  have a3 : s0 < 0xE0 := by omega
  have a4 : ¬ s0 = 0xE0 := by omega
  have a5 : ¬ s0 = 0xF0 := by omega
  have a6 : ¬ s0 = 0xED := by omega
  have a7 : ¬ s0 = 0xF4 := by omega
  have a8 : ¬ (s1 < 0x80 ∨ 0xBF < s1) := by omega
  simp only [decodeRune, a1, a2, a3, a4, a5, a6, a7, a8, if_true, if_false, List.length_cons,
    List.getD_cons_zero]
  simp

/-- Shared step: an accepted sequence with first byte in `E0..EF` decodes as a
rune of width 3. -/
lemma decodeRune_three (s0 s1 s2 : Nat) (rest : List Nat) (h0 : 0xE0 ≤ s0) (h0b : s0 ≤ 0xEF)
    (h1 : (if s0 = 0xE0 then 0xA0 else 0x80) ≤ s1)
    (h1b : s1 ≤ (if s0 = 0xED then 0x9F else 0xBF))
    (h2 : 0x80 ≤ s2) (h2b : s2 ≤ 0xBF) :
    decodeRune (s0 :: s1 :: s2 :: rest) = (s0 % 16 * 4096 + s1 % 64 * 64 + s2 % 64, 3) := by
  have a1 : ¬ s0 < 0x80 := by omega
  have a2 : ¬ (s0 < 0xC2 ∨ 0xF4 < s0) := by omega
  have a3 : ¬ s0 < 0xE0 := by omega
  have a4 : s0 < 0xF0 := by omega
  have a5 : ¬ s0 = 0xF0 := by omega
  have a7 : ¬ s0 = 0xF4 := by omega
  have a9 : ¬ (s2 < 0x80 ∨ 0xBF < s2) := by omega
  have a8 : ¬ (s1 < (if s0 = 0xE0 then 0xA0 else 0x80) ∨
      (if s0 = 0xED then 0x9F else 0xBF) < s1) := by omega
  simp only [decodeRune, a1, a2, a3, a4, a5, a7, a8, a9, if_true, if_false, List.length_cons,
    List.getD_cons_zero, List.getD_cons_succ]
  simp

/-- Shared step: an accepted sequence with first byte in `F0..F4` decodes as a
rune of width 4. -/
lemma decodeRune_four (s0 s1 s2 s3 : Nat) (rest : List Nat) (h0 : 0xF0 ≤ s0) (h0b : s0 ≤ 0xF4)
    (h1 : (if s0 = 0xF0 then 0x90 else 0x80) ≤ s1)
    (h1b : s1 ≤ (if s0 = 0xF4 then 0x8F else 0xBF))
    (h2 : 0x80 ≤ s2) (h2b : s2 ≤ 0xBF) (h3 : 0x80 ≤ s3) (h3b : s3 ≤ 0xBF) :
    decodeRune (s0 :: s1 :: s2 :: s3 :: rest)
      = (s0 % 8 * 262144 + s1 % 64 * 4096 + s2 % 64 * 64 + s3 % 64, 4) := by
  have a1 : ¬ s0 < 0x80 := by omega
  have a2 : ¬ (s0 < 0xC2 ∨ 0xF4 < s0) := by omega
  have a3 : ¬ s0 < 0xE0 := by omega
  have a4 : ¬ s0 < 0xF0 := by omega
  have a5 : ¬ s0 = 0xE0 := by omega
  have a6 : ¬ s0 = 0xED := by omega
  have a9 : ¬ (s2 < 0x80 ∨ 0xBF < s2) := by omega
  have a10 : ¬ (s3 < 0x80 ∨ 0xBF < s3) := by omega
  have a8 : ¬ (s1 < (if s0 = 0xF0 then 0x90 else 0x80) ∨
      (if s0 = 0xF4 then 0x8F else 0xBF) < s1) := by omega
  simp only [decodeRune, a1, a2, a3, a4, a5, a6, a8, a9, a10, if_true, if_false,
    List.length_cons, List.getD_cons_zero, List.getD_cons_succ]
  simp

/-- Shared step: the code point of a character is a Unicode scalar value. -/
lemma char_valid (c : Char) :
    c.toNat < 0xD800 ∨ (0xDFFF < c.toNat ∧ c.toNat < 0x110000) := by
  have h := c.valid
  simpa [UInt32.isValidChar, Nat.isValidChar, Char.toNat] using h

/-- Shared step: the encoder reads the UTF-8 encoding of a character back as
that character and goes on with the bytes after it. -/
lemma jsonRunes_encodeChar (c : Char) (rest : List Nat) :
    jsonRunes 0 (utf8EncodeChar c ++ rest) = c :: jsonRunes 0 rest := by
  have hv := char_valid c
  have hc : Char.ofNat c.toNat = c := Char.ofNat_toNat c
  generalize hn : c.toNat = n at hv hc
  unfold utf8EncodeChar
  rw [hn]
  by_cases h1 : n ≤ 0x7F
  · have : n < 0x80 := by omega
    simp [h1, jsonRunes, this, hc]
  · by_cases h2 : n ≤ 0x7FF
    · have hd := decodeRune_two (0xC0 + n / 64) (0x80 + n % 64) rest
        (by omega) (by omega) (by omega) (by omega)
      have hb : ¬ (0xC0 + n / 64 < 0x80) := by omega
      have hr : (0xC0 + n / 64) % 32 * 64 + (0x80 + n % 64) % 64 = n := by omega
      have hf : ¬ n = 0xFFFD := by omega
      rw [hr] at hd
      simp [h1, h2, jsonRunes, hd, hb, hf, hc]
    · by_cases h3 : n ≤ 0xFFFF
      · have hd := decodeRune_three (0xE0 + n / 4096) (0x80 + n / 64 % 64) (0x80 + n % 64) rest
          (by omega) (by omega) (by split_ifs <;> omega) (by split_ifs <;> omega)
          (by omega) (by omega)
        have hb : ¬ (0xE0 + n / 4096 < 0x80) := by omega
        have hr : (0xE0 + n / 4096) % 16 * 4096 + (0x80 + n / 64 % 64) % 64 * 64
            + (0x80 + n % 64) % 64 = n := by omega
        rw [hr] at hd
        simp [h1, h2, h3, jsonRunes, hd, hb, hc]
      · have hd := decodeRune_four (0xF0 + n / 262144) (0x80 + n / 4096 % 64)
          (0x80 + n / 64 % 64) (0x80 + n % 64) rest
          (by omega) (by omega) (by split_ifs <;> omega) (by split_ifs <;> omega)
          (by omega) (by omega) (by omega) (by omega)
        have hb : ¬ (0xF0 + n / 262144 < 0x80) := by omega
        have hr : (0xF0 + n / 262144) % 8 * 262144 + (0x80 + n / 4096 % 64) % 64 * 4096
            + (0x80 + n / 64 % 64) % 64 * 64 + (0x80 + n % 64) % 64 = n := by omega
        have hf : ¬ n = 0xFFFD := by omega
        rw [hr] at hd
        simp [h1, h2, h3, jsonRunes, hd, hb, hf, hc]

/-- Shared step: the encoder reads the UTF-8 encoding of a list of characters
back as that list. -/
lemma jsonRunes_utf8Bytes (cs : List Char) : jsonRunes 0 (utf8Bytes cs) = cs := by
  induction cs with
  | nil => rfl
  | cons c cs ih => simp [utf8Bytes, jsonRunes_encodeChar, ih]

/-- Shared step: a standard output that is the UTF-8 encoding of a text reaches
the JSON reader as that text. -/
lemma jsonText_utf8Encode (s : String) : jsonText (utf8Encode s) = s := by
  simp [jsonText, utf8Encode, jsonRunes_utf8Bytes]

/-- C5, as stated, fails twice.  An upload of `clip.wav` for which the binary
exits with code 0 after printing nothing is answered 200 with an empty payload,
so a successful run does not always give a non-empty text.  And when the binary
prints the bytes `61 FF 62`, which are not valid UTF-8, the payload is the text
`a`, U+FFFD, `b`, whose UTF-8 encoding `61 EF BF BD 62` is not the captured
standard output. -/
theorem successful_run_payload_counterexample :
    (okCtx "").FormFile "audio" = Except.ok clip ∧
    (okCtx "").Output whisperBin ["--file", "/tmp/clip.wav", "--model", "medium"] = ([], none) ∧
    (transcribeAudio (okCtx "")).response = ⟨200, [("transcription", "")]⟩ ∧
    (translateAudio (okCtx "")).response = ⟨200, [("translation", "")]⟩ ∧
    (rawCtx [0x61, 0xFF, 0x62]).FormFile "audio" = Except.ok clip ∧
    (rawCtx [0x61, 0xFF, 0x62]).Output whisperBin
        ["--file", "/tmp/clip.wav", "--model", "medium"] = ([0x61, 0xFF, 0x62], none) ∧
    (transcribeAudio (rawCtx [0x61, 0xFF, 0x62])).response
      = ⟨200, [("transcription", "a\uFFFDb")]⟩ ∧
    (translateAudio (rawCtx [0x61, 0xFF, 0x62])).response
      = ⟨200, [("translation", "a\uFFFDb")]⟩ ∧
    utf8Encode "a\uFFFDb" = [0x61, 0xEF, 0xBF, 0xBD, 0x62] ∧
    ¬ (∀ (c : Ctx) (file : FileHeader) (out : List Nat),
        c.FormFile "audio" = Except.ok file →
        c.Output whisperBin ["--file", "/tmp/" ++ file.Filename, "--model", "medium"]
          = (out, none) →
        ∃ text : String,
          (transcribeAudio c).response = ⟨200, [("transcription", text)]⟩ ∧
          text ≠ "" ∧ utf8Encode text = out) ∧
    ¬ (∀ (c : Ctx) (file : FileHeader) (out : List Nat),
        c.FormFile "audio" = Except.ok file →
        c.Output whisperBin ["--file", "/tmp/" ++ file.Filename, "--model", "medium"]
          = (out, none) →
        ∃ text : String,
          (transcribeAudio c).response = ⟨200, [("transcription", text)]⟩ ∧
          utf8Encode text = out) := by
  refine ⟨rfl, rfl, by decide, by decide, rfl, rfl, by decide, by decide, by decide, ?_, ?_⟩
  · intro h
    obtain ⟨text, hr, hne, _⟩ := h (okCtx "") clip [] rfl rfl
    have h0 : (transcribeAudio (okCtx "")).response = ⟨200, [("transcription", "")]⟩ := by
      decide
    rw [h0] at hr
    simp only [Response.mk.injEq, List.cons.injEq, Prod.mk.injEq, true_and, and_true] at hr
    exact hne hr.symm
  · intro h
    obtain ⟨text, hr, he⟩ := h (rawCtx [0x61, 0xFF, 0x62]) clip [0x61, 0xFF, 0x62] rfl rfl
    have h0 : (transcribeAudio (rawCtx [0x61, 0xFF, 0x62])).response
        = ⟨200, [("transcription", "a\uFFFDb")]⟩ := by
      decide
    rw [h0] at hr
    simp only [Response.mk.injEq, List.cons.injEq, Prod.mk.injEq, true_and, and_true] at hr
    subst hr
    revert he
    decide

/-- C5, amended: for every upload that carries an `audio` file and every run in
which the binary exits successfully, `transcribeAudio` (resp. `translateAudio`)
responds 200 with a body whose only field `transcription` (resp. `translation`)
holds the captured standard output as the JSON encoder renders it: when the
output is the UTF-8 encoding of a text, empty or not, the payload is that text,
and otherwise every invalid byte is replaced by U+FFFD. -/
theorem successful_run_returns_output (c : Ctx) (file : FileHeader)
    (h : c.FormFile "audio" = Except.ok file) :
    (∀ out : List Nat,
      c.Output whisperBin ["--file", "/tmp/" ++ file.Filename, "--model", "medium"]
        = (out, none) →
      (transcribeAudio c).response = ⟨200, [("transcription", jsonText out)]⟩) ∧
    (∀ text : String,
      c.Output whisperBin ["--file", "/tmp/" ++ file.Filename, "--model", "medium"]
        = (utf8Encode text, none) →
      (transcribeAudio c).response = ⟨200, [("transcription", text)]⟩) ∧
    (∀ out : List Nat,
      c.Output whisperBin
          ["--file", "/tmp/" ++ file.Filename, "--model", "medium", "--translate"]
        = (out, none) →
      (translateAudio c).response = ⟨200, [("translation", jsonText out)]⟩) ∧
    (∀ text : String,
      c.Output whisperBin
          ["--file", "/tmp/" ++ file.Filename, "--model", "medium", "--translate"]
        = (utf8Encode text, none) →
      (translateAudio c).response = ⟨200, [("translation", text)]⟩) := by
  refine ⟨?_, ?_, ?_, ?_⟩
  · intro out ho
    simp [transcribeAudio, h, ho, StatusOK]
  · intro text ho
    simp [transcribeAudio, h, ho, StatusOK, jsonText_utf8Encode]
  · intro out ho
    simp [translateAudio, h, ho, StatusOK]
  · intro text ho
    simp [translateAudio, h, ho, StatusOK, jsonText_utf8Encode]

theorem successful_run_returns_output_witness :
    (okCtx "hello").FormFile "audio" = Except.ok clip ∧
    (okCtx "hello").Output whisperBin ["--file", "/tmp/clip.wav", "--model", "medium"]
      = ([104, 101, 108, 108, 111], none) ∧
    (transcribeAudio (okCtx "hello")).response = ⟨200, [("transcription", "hello")]⟩ ∧
    (translateAudio (okCtx "hello")).response = ⟨200, [("translation", "hello")]⟩ ∧
    (transcribeAudio (rawCtx [0x61, 0xFF, 0x62])).response
      = ⟨200, [("transcription", jsonText [0x61, 0xFF, 0x62])]⟩ :=
  ⟨rfl, by decide,
    (successful_run_returns_output (okCtx "hello") clip rfl).2.1 "hello" rfl,
    (successful_run_returns_output (okCtx "hello") clip rfl).2.2.2 "hello" rfl,
    (successful_run_returns_output (rawCtx [0x61, 0xFF, 0x62]) clip rfl).1
      [0x61, 0xFF, 0x62] rfl⟩

/-- C6: for every upload that carries an `audio` file, whenever the process run
returns an error (it could not be started or exited with a non-zero code),
`transcribeAudio` responds 500 with exactly `{"error":"Transcription failed"}`
and `translateAudio` 500 with exactly `{"error":"Translation failed"}`, for every
error and every captured standard output. -/
theorem failed_run_generic_error (c : Ctx) (file : FileHeader)
    (h : c.FormFile "audio" = Except.ok file) :
    (∀ (out : List Nat) (err : ExecError),
      c.Output whisperBin ["--file", "/tmp/" ++ file.Filename, "--model", "medium"]
        = (out, some err) →
      (transcribeAudio c).response = ⟨500, [("error", "Transcription failed")]⟩) ∧
    (∀ (out : List Nat) (err : ExecError),
      c.Output whisperBin
          ["--file", "/tmp/" ++ file.Filename, "--model", "medium", "--translate"]
        = (out, some err) →
      (translateAudio c).response = ⟨500, [("error", "Translation failed")]⟩) := by
  constructor <;> intro out err ho
  · simp [transcribeAudio, h, ho, StatusInternalServerError]
  · simp [translateAudio, h, ho, StatusInternalServerError]

theorem failed_run_generic_error_witness :
    (crashCtx "partial text").FormFile "audio" = Except.ok clip ∧
    (transcribeAudio (crashCtx "partial text")).response
      = ⟨500, [("error", "Transcription failed")]⟩ ∧
    (translateAudio (crashCtx "partial text")).response
      = ⟨500, [("error", "Translation failed")]⟩ :=
  ⟨rfl,
    (failed_run_generic_error (crashCtx "partial text") clip rfl).1
      (utf8Encode "partial text") (ExecError.exit 1) rfl,
    (failed_run_generic_error (crashCtx "partial text") clip rfl).2
      (utf8Encode "partial text") (ExecError.exit 1) rfl⟩

/-- C7: for every uploaded file name `f`, whatever the outside world answers,
`transcribeAudio` starts the binary exactly once with the arguments
`--file /tmp/f --model medium`, and `translateAudio` starts it exactly once with
the same arguments followed by `--translate`. -/
theorem command_arguments (c : Ctx) (file : FileHeader)
    (h : c.FormFile "audio" = Except.ok file) :
    commands (transcribeAudio c).effects =
      [(whisperBin, ["--file", "/tmp/" ++ file.Filename, "--model", "medium"])] ∧
    commands (translateAudio c).effects =
      [(whisperBin,
        ["--file", "/tmp/" ++ file.Filename, "--model", "medium"] ++ ["--translate"])] := by
  constructor
  · rcases ho : c.Output whisperBin ["--file", "/tmp/" ++ file.Filename, "--model", "medium"]
      with ⟨out, _ | err⟩ <;> simp [transcribeAudio, h, ho, commands]
  · rcases ho : c.Output whisperBin
        ["--file", "/tmp/" ++ file.Filename, "--model", "medium", "--translate"]
      with ⟨out, _ | err⟩ <;> simp [translateAudio, h, ho, commands]

theorem command_arguments_witness :
    (okCtx "hello").FormFile "audio" = Except.ok clip ∧
    commands (transcribeAudio (okCtx "hello")).effects =
      [(whisperBin, ["--file", "/tmp/" ++ clip.Filename, "--model", "medium"])] ∧
    commands (translateAudio (okCtx "hello")).effects =
      [(whisperBin,
        ["--file", "/tmp/" ++ clip.Filename, "--model", "medium"] ++ ["--translate"])] :=
  ⟨rfl, command_arguments (okCtx "hello") clip rfl⟩

/-- C9: when the model file of the requested model is absent (`os.Stat` on its
path returns an error), `installModel` runs the download script exactly once,
with the model name (`medium` for an empty query value) as its argument, and
responds 200 with `{"message":"Model <m> installed"}` when the script succeeds
and 500 with `{"error":"Failed to install model"}` on every error. -/
theorem install_model_downloads_once (c : Ctx) (e : Errno)
    (h : c.Stat (modelPath (modelOf c)) = some e) :
    commands (installModel c).effects =
      [("bash", [whisperDir ++ "/models/download-ggml-model.sh", modelOf c])] ∧
    (c.Run "bash" [whisperDir ++ "/models/download-ggml-model.sh", modelOf c] = none →
      (installModel c).response = ⟨200, [("message", "Model " ++ modelOf c ++ " installed")]⟩) ∧
    (∀ err : ExecError,
      c.Run "bash" [whisperDir ++ "/models/download-ggml-model.sh", modelOf c] = some err →
      (installModel c).response = ⟨500, [("error", "Failed to install model")]⟩) ∧
    modelOf c = (if c.Query "model" = "" then "medium" else c.Query "model") := by
  refine ⟨?_, ?_, ?_, rfl⟩
  · cases hr : c.Run "bash" [whisperDir ++ "/models/download-ggml-model.sh", modelOf c] <;>
      simp [installModel, h, hr, commands]
  · intro hr
    simp [installModel, h, hr, StatusOK]
  · intro err hr
    simp [installModel, h, hr, StatusInternalServerError]

theorem install_model_downloads_once_witness :
    (installCtx "tiny" none).Stat (modelPath (modelOf (installCtx "tiny" none)))
      = some Errno.ENOENT ∧
    commands (installModel (installCtx "tiny" none)).effects =
      [("bash", [whisperDir ++ "/models/download-ggml-model.sh", "tiny"])] ∧
    (installModel (installCtx "tiny" none)).response =
      ⟨200, [("message", "Model tiny installed")]⟩ ∧
    (installModel (installCtx "" (some (ExecError.exit 1)))).response =
      ⟨500, [("error", "Failed to install model")]⟩ :=
  ⟨rfl,
    (install_model_downloads_once (installCtx "tiny" none) Errno.ENOENT rfl).1,
    (install_model_downloads_once (installCtx "tiny" none) Errno.ENOENT rfl).2.1 rfl,
    (install_model_downloads_once (installCtx "" (some (ExecError.exit 1)))
      Errno.ENOENT rfl).2.2.1 (ExecError.exit 1) rfl⟩

/-- Shared step: one round of the streaming loop does not depend on the result
of `os.WriteFile`. -/
lemma streamTurn_writeErr (t : Turn) (w : Option String) :
    streamTurn { t with writeErr := w } = streamTurn t := by
  cases hr : t.runErr <;> simp [streamTurn, hr]

/-- Shared step: the streaming loop does not depend on the results of
`os.WriteFile`. -/
lemma streamLoop_writeErr (w : Turn → Option String) (turns : List Turn) :
    streamLoop (turns.map (fun t => { t with writeErr := w t })) = streamLoop turns := by
  induction turns with
  | nil => rfl
  | cons t ts ih => simp [streamLoop, streamTurn_writeErr, ih]

/-- C10: the result of writing the scratch file is ignored.  Replacing the
answers of `c.SaveUploadedFile` (resp. of `os.WriteFile` in every round) by any
others changes neither the calls nor the response of `transcribeAudio`,
`translateAudio` and `streamAudio`; in particular a failed write followed by a
successful run is answered 200 with the output (resp. with the output as a text
message). -/
theorem scratch_write_result_ignored :
    (∀ (c : Ctx) (save : FileHeader → String → Option String),
      transcribeAudio { c with SaveUploadedFile := save } = transcribeAudio c) ∧
    (∀ (c : Ctx) (save : FileHeader → String → Option String),
      translateAudio { c with SaveUploadedFile := save } = translateAudio c) ∧
    (∀ (u : Option String) (w : Turn → Option String) (turns : List Turn),
      streamAudio u (turns.map (fun t => { t with writeErr := w t })) = streamAudio u turns) ∧
    (∀ (c : Ctx) (file : FileHeader) (out : List Nat) (msg : String),
      c.FormFile "audio" = Except.ok file →
      c.SaveUploadedFile file ("/tmp/" ++ file.Filename) = some msg →
      c.Output whisperBin ["--file", "/tmp/" ++ file.Filename, "--model", "medium"]
        = (out, none) →
      (transcribeAudio c).response = ⟨200, [("transcription", jsonText out)]⟩) ∧
    (∀ (c : Ctx) (file : FileHeader) (out : List Nat) (msg : String),
      c.FormFile "audio" = Except.ok file →
      c.SaveUploadedFile file ("/tmp/" ++ file.Filename) = some msg →
      c.Output whisperBin
          ["--file", "/tmp/" ++ file.Filename, "--model", "medium", "--translate"]
        = (out, none) →
      (translateAudio c).response = ⟨200, [("translation", jsonText out)]⟩) ∧
    (∀ (t : Turn) (msg : String), t.writeErr = some msg → t.runErr = none →
      sentMessages (streamAudio none [t]) = [(TextMessage, t.out)]) := by
  refine ⟨fun c save => rfl, fun c save => rfl, ?_, ?_, ?_, ?_⟩
  · intro u w turns
    cases u <;> simp [streamAudio, streamLoop_writeErr]
  · intro c file out msg h _ ho
    simp [transcribeAudio, h, ho, StatusOK]
  · intro c file out msg h _ ho
    simp [translateAudio, h, ho, StatusOK]
  · intro t msg _ hr
    simp [streamAudio, streamLoop, streamTurn, hr, sentMessages]

theorem scratch_write_result_ignored_witness :
    (diskFullCtx "hello").SaveUploadedFile clip "/tmp/clip.wav"
      = some "no space left on device" ∧
    (transcribeAudio (diskFullCtx "hello")).response = ⟨200, [("transcription", "hello")]⟩ ∧
    (translateAudio (diskFullCtx "hello")).response = ⟨200, [("translation", "hello")]⟩ ∧
    sentMessages (streamAudio none
      [⟨2, [82, 73], some "no space left on device", "hello", none, none⟩])
      = [(TextMessage, "hello")] :=
  ⟨rfl,
    scratch_write_result_ignored.2.2.2.1 (diskFullCtx "hello") clip (utf8Encode "hello")
      "no space left on device" rfl rfl rfl,
    scratch_write_result_ignored.2.2.2.2.1 (diskFullCtx "hello") clip (utf8Encode "hello")
      "no space left on device" rfl rfl rfl,
    scratch_write_result_ignored.2.2.2.2.2
      ⟨2, [82, 73], some "no space left on device", "hello", none, none⟩
      "no space left on device" rfl rfl⟩

/-- Shared step: a path without `/` is a single element. -/
lemma splitSlash_of_not_mem (l : List Char) (h : '/' ∉ l) : splitSlash l = [l] := by
  induction l with
  | nil => rfl
  | cons c cs ih =>
    have hc : c ≠ '/' := fun hc => h (by simp [hc])
    have hcs : '/' ∉ cs := fun hm => h (List.mem_cons_of_mem _ hm)
    simp [splitSlash, hc, ih hcs]

/-- Shared step: for a model name without `/` the joined path is the plain
concatenation. -/
lemma modelPath_of_not_mem (m : String) (h : '/' ∉ m.data) :
    modelPath m = whisperDir ++ "/models/ggml-" ++ m ++ ".bin" := by
  have hs : '/' ∉ m.data ++ ['.', 'b', 'i', 'n'] := by
    simp [h]
  have hsplit := splitSlash_of_not_mem _ hs
  apply String.ext
  simp [modelPath, filepathJoin, whisperDir, filepathClean, List.intercalate, splitSlash,
    hsplit, cleanStep, String.data_append]

/-- Shared step: `installModel` calls `os.Stat` once, on the joined path. -/
lemma statPaths_installModel (c : Ctx) :
    statPaths (installModel c).effects = [modelPath (modelOf c)] := by
  cases hs : c.Stat (modelPath (modelOf c)) with
  | none => simp [installModel, hs, statPaths]
  | some e =>
    cases hr : c.Run "bash" [whisperDir ++ "/models/download-ggml-model.sh", modelOf c] <;>
      simp [installModel, hs, hr, statPaths]

/-- C8, as stated, fails: for the query value `/../../x` the path `installModel`
checks is `$HOME/whisper.cpp/x.bin`, which is neither named `ggml-<model>.bin`
nor located under `$HOME/whisper.cpp/models/`. -/
theorem model_path_can_leave_models_directory :
    (installCtx "/../../x" none).Query "model" = "/../../x" ∧
    statPaths (installModel (installCtx "/../../x" none)).effects
      = ["$HOME/whisper.cpp/x.bin"] ∧
    ¬ ((whisperDir ++ "/models/").data <+: ("$HOME/whisper.cpp/x.bin" : String).data) := by
  decide

/-- C8, amended: for every model name given in the `model` query parameter that
contains no `/` (the empty value standing for `medium`), the one path
`installModel` checks is `whisperDir/models/ggml-<model>.bin`, a file directly
under the models directory; for every query value the path is the same function
of the name, whatever the outside world answers. -/
theorem model_path_under_models_directory (c : Ctx)
    (h : '/' ∉ (c.Query "model").data) :
    statPaths (installModel c).effects =
      [whisperDir ++ "/models/ggml-" ++ modelOf c ++ ".bin"] ∧
    (whisperDir ++ "/models/").data <+:
      (whisperDir ++ "/models/ggml-" ++ modelOf c ++ ".bin").data ∧
    '/' ∉ ("ggml-" ++ modelOf c ++ ".bin").data ∧
    modelOf c = (if c.Query "model" = "" then "medium" else c.Query "model") ∧
    (∀ c2 : Ctx, c2.Query "model" = c.Query "model" →
      statPaths (installModel c2).effects = statPaths (installModel c).effects) := by
  have hm : '/' ∉ (modelOf c).data := by
    unfold modelOf
    by_cases hq : c.Query "model" = ""
    · simp [hq]
    · simpa [hq] using h
  refine ⟨?_, ?_, ?_, rfl, ?_⟩
  · rw [statPaths_installModel, modelPath_of_not_mem _ hm]
  · exact ⟨"ggml-".data ++ (modelOf c).data ++ ".bin".data, by simp [String.data_append]⟩
  · simp [String.data_append, hm]
  · intro c2 hq
    have : modelOf c2 = modelOf c := by simp [modelOf, hq]
    rw [statPaths_installModel, statPaths_installModel, this]

theorem model_path_under_models_directory_witness :
    '/' ∉ ((okCtx "").Query "model").data ∧
    statPaths (installModel (okCtx "")).effects =
      [whisperDir ++ "/models/ggml-" ++ modelOf (okCtx "") ++ ".bin"] ∧
    statPaths (installModel (okCtx "")).effects = ["$HOME/whisper.cpp/models/ggml-tiny.bin"] :=
  ⟨by decide, (model_path_under_models_directory (okCtx "") (by decide)).1, by decide⟩

end Vengine
